import Mathlib

/-!
Shallow embedding of resgate's `main.go`: the configuration resolution
performed by `Config.Init` (flag parsing, optional JSON config file,
command-line precedence, defaulting) and the process-lifecycle logic of
`main` (the trigger select and the stop-vs-timeout race).

The embedded `server.Config` part (its fields, JSON keys and its
`SetDefault`) lives in the `server` package of this repository and is not
under `src/`; those pieces are modelled from the spec, as marked in the
doc comments below.
-/

/-- Server configuration: the merge of main.go's `Config` (lines 40-45)
with the embedded `server.Config`. `headerAuth` models Go's `*string`
(`none` = nil pointer). `port` models Go's `uint16` as a `Nat` that every
assignment keeps below 65536. `requestTimeout` is a Go `int`, so it can be
negative. Modelled from the spec: the exact `server.Config` field set is
not under src/; per spec section 3 it holds `port`, `wsPath`, `apiPath`,
`headerAuth`, `tls`, `tlsCert`, `tlsKey`. -/
structure Config where
  natsURL : String
  requestTimeout : Int
  debug : Bool
  port : Nat
  wsPath : String
  apiPath : String
  headerAuth : Option String
  tls : Bool
  tlsCert : String
  tlsKey : String
deriving Repr, DecidableEq

/-- `Config.SetDefault` (main.go lines 48-56) together with the embedded
`server.Config.SetDefault` it calls. Modelled from the spec:
`server.Config.SetDefault` is not under src/; per the usage text and spec
sections 3 and 6, an unset port defaults to 8080, `wsPath` to `"/"` and
`apiPath` to `"/api/"`, while `headerAuth` and the TLS fields have no
non-zero default. -/
def Config.setDefault (c : Config) : Config :=
  { c with
    natsURL := if c.natsURL = "" then "nats://127.0.0.1:4222" else c.natsURL
    requestTimeout := if c.requestTimeout = 0 then 5 else c.requestTimeout
    port := if c.port = 0 then 8080 else c.port
    wsPath := if c.wsPath = "" then "/" else c.wsPath
    apiPath := if c.apiPath = "" then "/api/" else c.apiPath }

/-- The command line after `fs.Parse` succeeded: for each option, `none`
when the flag was never supplied and `some v` when it was supplied with
(last) value `v`. Short and long forms of an option share one
destination (main.go lines 68-86), so one field per option suffices. The
flag package records which flags were explicitly supplied (`fs.Visit`),
which is exactly the `some`/`none` distinction. A malformed argument list
never reaches the logic modelled here (main.go line 88 dies first). -/
structure Args where
  nats : Option String := none
  port : Option Nat := none
  wspath : Option String := none
  apipath : Option String := none
  headauth : Option String := none
  tls : Option Bool := none
  tlscert : Option String := none
  tlskey : Option String := none
  reqtimeout : Option Int := none
  config : Option String := none
  help : Bool := false
deriving Repr, DecidableEq

/-- The configuration as it stands after flag registration and the first
`fs.Parse` (main.go lines 68-90): registration resets every bound
destination to its flag default (the zero value), and parsing writes each
supplied flag's value. The `port` and `headauth` flags are parsed into
local variables, not into the config (lines 74-75 and 80-81), so
`port` stays 0 and `headerAuth` stays nil here; `debug` is bound to no
flag at all. -/
def parsedConfig (a : Args) : Config :=
  { natsURL := a.nats.getD ""
    requestTimeout := a.reqtimeout.getD 0
    debug := false
    port := 0
    wsPath := a.wspath.getD ""
    apiPath := a.apipath.getD ""
    headerAuth := none
    tls := a.tls.getD false
    tlsCert := a.tlscert.getD ""
    tlsKey := a.tlskey.getD "" }

/-- A well-typed parsed JSON config file: for each field, `none` when the
key is absent and `some v` when present with value `v`. A file whose
content is not well-typed JSON for this schema (including a negative
port, which cannot unmarshal into Go's `uint16`) is modelled as
`FileState.content none` below; a numerically too-large port is
representable here and rejected by `unmarshalInto`. For `headauth`, a
JSON `null` and an absent key both leave the `*string` nil, so both are
`none`. Modelled from the spec: the JSON tags of the embedded
`server.Config` are not under src/; spec sections 6 and 8 give the key
names (`port`, `headauth`, ...). -/
structure FileCfg where
  natsUrl : Option String := none
  requestTimeout : Option Int := none
  debug : Option Bool := none
  port : Option Nat := none
  wsPath : Option String := none
  apiPath : Option String := none
  headauth : Option String := none
  tls : Option Bool := none
  tlsCert : Option String := none
  tlsKey : Option String := none
deriving Repr, DecidableEq

/-- The overwriting part of `json.Unmarshal(fin, c)` (main.go line 116):
every key present in the file overwrites the corresponding field of `c`,
absent keys leave the field untouched. -/
def overwriteWith (c : Config) (p : FileCfg) : Config :=
  { natsURL := p.natsUrl.getD c.natsURL
    requestTimeout := p.requestTimeout.getD c.requestTimeout
    debug := p.debug.getD c.debug
    port := p.port.getD c.port
    wsPath := p.wsPath.getD c.wsPath
    apiPath := p.apiPath.getD c.apiPath
    headerAuth := match p.headauth with
      | some v => some v
      | none => c.headerAuth
    tls := p.tls.getD c.tls
    tlsCert := p.tlsCert.getD c.tlsCert
    tlsKey := p.tlsKey.getD c.tlsKey }

/-- `json.Unmarshal(fin, c)` (main.go line 116). Returns `none` (an
unmarshal error, reported as a config parse error) when a present `port`
value does not fit Go's `uint16`. -/
def unmarshalInto (c : Config) (p : FileCfg) : Option Config :=
  if 65536 ≤ p.port.getD 0 then none else some (overwriteWith c p)

/-- The second `fs.Parse(args)` (main.go line 122): each flag supplied on
the command line is written again into the config, on top of the
file-derived values; flags never supplied keep the file value, because
flag defaults are applied at registration, not re-applied by a second
Parse. The `port` and `headauth` flags again write locals, leaving the
config untouched here. -/
def reapplyArgs (c : Config) (a : Args) : Config :=
  { c with
    natsURL := a.nats.getD c.natsURL
    requestTimeout := a.reqtimeout.getD c.requestTimeout
    wsPath := a.wspath.getD c.wsPath
    apiPath := a.apipath.getD c.apiPath
    tls := a.tls.getD c.tls
    tlsCert := a.tlscert.getD c.tlsCert
    tlsKey := a.tlskey.getD c.tlsKey }

/-- `json.MarshalIndent(c, "", "\t")` (main.go line 109) viewed through
the parse model: the JSON written for config `c`, read back as the
parsed file it produces. Every field's key is written with its value (a
zero `debug` is omitted by its `omitempty` tag, and a nil `headerAuth`
is either omitted or written as null; each reads back identically).
Modelled from the spec: the JSON tags of the embedded `server.Config`
are not under src/; spec section 6 says the bootstrap file uses the same
field names as the configuration. -/
def toFileCfg (c : Config) : FileCfg :=
  { natsUrl := some c.natsURL
    requestTimeout := some c.requestTimeout
    debug := if c.debug then some true else none
    port := some c.port
    wsPath := some c.wsPath
    apiPath := some c.apiPath
    headauth := c.headerAuth
    tls := some c.tls
    tlsCert := some c.tlsCert
    tlsKey := some c.tlsKey }

/-- State of the file system at the path given by `-c`/`--config`:
the file does not exist (`ioutil.ReadFile` fails with not-exist), it
exists but cannot be read (any other read error), or it exists with some
content, `content none` standing for content that fails to unmarshal. -/
inductive FileState
  | missing
  | unreadable
  | content (p : Option FileCfg)
deriving Repr, DecidableEq

/-- Outcome of `Config.Init` as observed by the process. `usageError`
is `printAndDie(msg, true)` (the message followed by the usage text,
exit 1); `helpShown` is `usage()` (usage text, exit 0); `initError` is a
returned error, which `main` (line 171) prints without the usage text
before exiting 1; `ok c wrote` is a successful resolution with resolved
configuration `c`, where `wrote = some d` records that a bootstrap file
with content `d` was written (best effort) at the configured path. -/
inductive InitResult
  | usageError (msg : String)
  | helpShown
  | initError (msg : String)
  | ok (c : Config) (wrote : Option Config)
deriving Repr, DecidableEq

/-- The file-handling step of `Config.Init` (main.go lines 100-124): when
no (or an empty) config path was supplied the config passes through
untouched; a missing file triggers the bootstrap (defaults filled in,
then written out); an unreadable or unparsable file is an error; a parsed
file is unmarshalled over the config and the command-line flags are then
re-applied on top. Returns the updated config together with the bootstrap
content, when one was written. -/
def fileStep (a : Args) (file : FileState) : Except String (Config × Option Config) :=
  if a.config.getD "" = "" then .ok (parsedConfig a, none)
  else match file with
    | .missing => .ok ((parsedConfig a).setDefault, some (parsedConfig a).setDefault)
    | .unreadable => .error "error loading config file"
    | .content none => .error "error parsing config file"
    | .content (some p) =>
        match unmarshalInto (parsedConfig a) p with
        | none => .error "error parsing config file"
        | some c1 => .ok (reapplyArgs c1 a, none)

/-- The port override (main.go lines 126-128): the local `port` value is
copied into the config only when strictly positive; `uint16(port)` is
exact because values at or above 65536 died at line 92. -/
def applyPort (a : Args) (c : Config) : Config :=
  if 0 < a.port.getD 0 then { c with port := a.port.getD 0 } else c

/-- The `fs.Visit` pass for `-u`/`--headauth` (main.go lines 130-141):
when the flag was never supplied the current value is kept; when it was
supplied empty the field is cleared to nil; otherwise it is set to the
supplied string. -/
def resolveHeadAuth (a : Args) (h : Option String) : Option String :=
  match a.headauth with
  | none => h
  | some s => if s = "" then none else some s

/-- `Config.Init` (main.go lines 60-147) on an already-parsed argument
list. `file` is the file-system state at the path given by
`-c`/`--config` (never consulted when that flag is absent or empty);
`_writeFailed` says whether the best-effort bootstrap
`ioutil.WriteFile` (line 114) would fail — the code discards that
error, so the parameter is unused. `json.MarshalIndent` (line 109)
cannot fail on this struct, so no error branch models it. -/
def Config.init (a : Args) (file : FileState) (_writeFailed : Bool) : InitResult :=
  if 65536 ≤ a.port.getD 0 then
    .usageError ("invalid port \"" ++ toString (a.port.getD 0) ++ "\": must be less than 65536")
  else if a.help then .helpShown
  else
    match fileStep a file with
    | .error msg => .initError msg
    | .ok (c1, wrote) =>
        .ok (Config.setDefault
          { applyPort a c1 with headerAuth := resolveHeadAuth a c1.headerAuth }) wrote

/-- What `main` observes first once the service runs (main.go lines
186-199): an OS termination signal (interrupt, hangup, terminate or
quit), or a value on the service's stop channel — `none` for a nil
error, `some e` for a fatal error with message `e`. -/
inductive Trigger
  | signal
  | stopChanEvent (err : Option String)
deriving Repr, DecidableEq

/-- Which event of the shutdown race (main.go lines 207-211) fires first:
completion of the goroutine running `serv.Stop`, or the `stopTimeout`
timer. -/
inductive RaceOutcome
  | stopDone
  | timedOut
deriving Repr, DecidableEq

/-- Final outcome of `main` after the trigger: `exitError` is
`printAndDie(msg, false)` (exit 1, message only), `panicked` is a Go
panic, `finished` is a normal return from `main` (exit 0). -/
inductive LifeOutcome
  | exitError (msg : String)
  | panicked (msg : String)
  | finished
deriving Repr, DecidableEq

/-- The `stopTimeout` of main.go line 18, in seconds. -/
def stopTimeoutSeconds : Nat := 10

/-- Whether a trigger reaches the shutdown sequence (main.go lines
200-211), i.e. whether `serv.Stop` is invoked: a non-nil error received
from the stop channel calls `printAndDie` (which exits the process)
inside the select, before line 204. -/
def stopInvoked : Trigger → Bool
  | .stopChanEvent (some _) => false
  | _ => true

/-- main.go lines 193-212: the select on the two triggers followed, when
reached, by the race between `serv.Stop`'s completion and the
`stopTimeout` timer. A non-nil stop-channel error exits immediately; a
signal or a nil stop-channel value proceeds to the race, whose timeout
branch panics. -/
def lifecycle : Trigger → RaceOutcome → LifeOutcome
  | .stopChanEvent (some e), _ => .exitError e
  | .stopChanEvent none, .stopDone => .finished
  | .stopChanEvent none, .timedOut => .panicked "Shutdown timed out"
  | .signal, .stopDone => .finished
  | .signal, .timedOut => .panicked "Shutdown timed out"

/-! ### Helper lemmas about the resolution pipeline -/

theorem applyPort_natsURL (a : Args) (c : Config) :
    (applyPort a c).natsURL = c.natsURL := by
  unfold applyPort; split <;> rfl

theorem applyPort_requestTimeout (a : Args) (c : Config) :
    (applyPort a c).requestTimeout = c.requestTimeout := by
  unfold applyPort; split <;> rfl

theorem applyPort_debug (a : Args) (c : Config) :
    (applyPort a c).debug = c.debug := by
  unfold applyPort; split <;> rfl

theorem applyPort_wsPath (a : Args) (c : Config) :
    (applyPort a c).wsPath = c.wsPath := by
  unfold applyPort; split <;> rfl

theorem applyPort_apiPath (a : Args) (c : Config) :
    (applyPort a c).apiPath = c.apiPath := by
  unfold applyPort; split <;> rfl

theorem applyPort_headerAuth (a : Args) (c : Config) :
    (applyPort a c).headerAuth = c.headerAuth := by
  unfold applyPort; split <;> rfl

theorem applyPort_tls (a : Args) (c : Config) :
    (applyPort a c).tls = c.tls := by
  unfold applyPort; split <;> rfl

theorem applyPort_tlsCert (a : Args) (c : Config) :
    (applyPort a c).tlsCert = c.tlsCert := by
  unfold applyPort; split <;> rfl

theorem applyPort_tlsKey (a : Args) (c : Config) :
    (applyPort a c).tlsKey = c.tlsKey := by
  unfold applyPort; split <;> rfl

theorem applyPort_port (a : Args) (c : Config) :
    (applyPort a c).port = if 0 < a.port.getD 0 then a.port.getD 0 else c.port := by
  unfold applyPort; split <;> simp_all

theorem overwrite_parsed_headerAuth (a : Args) (p : FileCfg) :
    (overwriteWith (parsedConfig a) p).headerAuth = p.headauth := by
  cases hp : p.headauth <;> simp [overwriteWith, parsedConfig, hp]

theorem reapplyArgs_headerAuth (c : Config) (a : Args) :
    (reapplyArgs c a).headerAuth = c.headerAuth := rfl

/-- Shape of `Config.Init` when a config path is supplied and the file
parses: unmarshal over the first-pass config, re-apply the flags, apply
the port and headauth overrides, default the rest; no bootstrap write. -/
theorem init_content_eq (a : Args) (p : FileCfg) (path : String) (e : Bool)
    (hpath : a.config = some path) (hpne : path ≠ "")
    (h16 : a.port.getD 0 < 65536) (hh : a.help = false)
    (hpp : p.port.getD 0 < 65536) :
    Config.init a (.content (some p)) e =
      .ok (Config.setDefault
        { applyPort a (reapplyArgs (overwriteWith (parsedConfig a) p) a) with
          headerAuth := resolveHeadAuth a p.headauth }) none := by
  have h16' : ¬ 65536 ≤ a.port.getD 0 := Nat.not_le.mpr h16
  have hpp' : ¬ 65536 ≤ p.port.getD 0 := Nat.not_le.mpr hpp
  simp [Config.init, fileStep, unmarshalInto, hpath, hpne, h16', hh, hpp',
    reapplyArgs_headerAuth, overwrite_parsed_headerAuth]

/-- Shape of `Config.Init` when no config path (or an empty one) is
supplied: the file system is never consulted. -/
theorem init_nofile_eq (a : Args) (f : FileState) (e : Bool)
    (hcfg : a.config.getD "" = "")
    (h16 : a.port.getD 0 < 65536) (hh : a.help = false) :
    Config.init a f e =
      .ok (Config.setDefault
        { applyPort a (parsedConfig a) with
          headerAuth := resolveHeadAuth a none }) none := by
  have h16' : ¬ 65536 ≤ a.port.getD 0 := Nat.not_le.mpr h16
  simp [Config.init, fileStep, hcfg, h16', hh, parsedConfig]

/-- Shape of `Config.Init` when a config path is supplied and the file is
missing: defaults are filled in, the defaulted config is written out as
the bootstrap file, and the port/headauth overrides are applied on top. -/
theorem init_missing_eq (a : Args) (path : String) (e : Bool)
    (hpath : a.config = some path) (hpne : path ≠ "")
    (h16 : a.port.getD 0 < 65536) (hh : a.help = false) :
    Config.init a .missing e =
      .ok (Config.setDefault
        { applyPort a (parsedConfig a).setDefault with
          headerAuth := resolveHeadAuth a none })
        (some (parsedConfig a).setDefault) := by
  have h16' : ¬ 65536 ≤ a.port.getD 0 := Nat.not_le.mpr h16
  have hha : ((parsedConfig a).setDefault).headerAuth = none := rfl
  simp [Config.init, fileStep, hpath, hpne, h16', hh, hha]

/-- Every config produced by the file-handling step has a port below
65536: the first-pass config leaves it 0, the bootstrap defaults it to
8080, and an unmarshalled file value was range-checked. -/
theorem fileStep_port_lt (a : Args) (f : FileState) (c1 : Config)
    (wr : Option Config) (hfs : fileStep a f = .ok (c1, wr)) :
    c1.port < 65536 := by
  unfold fileStep at hfs
  split at hfs
  · simp at hfs
    obtain ⟨h, _⟩ := hfs
    simp [← h, parsedConfig]
  · cases f with
    | missing =>
        simp at hfs
        obtain ⟨h, _⟩ := hfs
        simp [← h, Config.setDefault, parsedConfig]
    | unreadable => simp at hfs
    | content po =>
        cases po with
        | none => simp at hfs
        | some p =>
            by_cases hpp : 65536 ≤ p.port.getD 0
            · simp [unmarshalInto, hpp] at hfs
            · simp [unmarshalInto, hpp] at hfs
              obtain ⟨h, _⟩ := hfs
              have hc : c1.port = p.port.getD 0 := by
                simp [← h, reapplyArgs, overwriteWith, parsedConfig]
              omega

/-- When `Config.Init` succeeds on a parsed config file, the result has
the pipeline shape (unmarshal, re-apply flags, port and headauth
overrides, defaults), no bootstrap was written, and all three guards
(CLI port range, help, file port range) passed. -/
theorem init_content_ok_shape (a : Args) (p : FileCfg) (path : String) (e : Bool)
    (c : Config) (w : Option Config)
    (hpath : a.config = some path) (hpne : path ≠ "")
    (hok : Config.init a (.content (some p)) e = .ok c w) :
    c = Config.setDefault
        { applyPort a (reapplyArgs (overwriteWith (parsedConfig a) p) a) with
          headerAuth := resolveHeadAuth a p.headauth } ∧
      w = none ∧ a.port.getD 0 < 65536 ∧ a.help = false ∧ p.port.getD 0 < 65536 := by
  by_cases h16 : 65536 ≤ a.port.getD 0
  · exfalso; simp [Config.init, h16] at hok
  by_cases hh : a.help = true
  · exfalso; simp [Config.init, h16, hh] at hok
  have hh' : a.help = false := by simpa using hh
  by_cases hpp : 65536 ≤ p.port.getD 0
  · exfalso
    simp [Config.init, fileStep, unmarshalInto, hpath, hpne, h16, hh', hpp] at hok
  rw [init_content_eq a p path e hpath hpne (Nat.not_le.mp h16) hh'
      (Nat.not_le.mp hpp)] at hok
  simp at hok
  exact ⟨hok.1.symm, hok.2.symm, Nat.not_le.mp h16, hh', Nat.not_le.mp hpp⟩

/-! ### Claim theorems -/

/-- Claim C1: when a config file exists and parses, every field that was
supplied on the command line with an effective (non-sentinel) value ends
up in the resolved configuration with its command-line value, even when
the file defines the same field — the overrides are re-asserted after
the file is loaded (the port via the post-file sentinel step). In
particular a file port of 9000 loses to CLI `--port 9090`. -/
theorem cli_overrides_win (a : Args) (p : FileCfg) (path : String) (e : Bool)
    (c : Config) (w : Option Config)
    (hpath : a.config = some path) (hpne : path ≠ "")
    (hok : Config.init a (.content (some p)) e = .ok c w) :
    (∀ n, a.port = some n → 0 < n → c.port = n) ∧
    (∀ v, a.nats = some v → v ≠ "" → c.natsURL = v) ∧
    (∀ v, a.wspath = some v → v ≠ "" → c.wsPath = v) ∧
    (∀ v, a.apipath = some v → v ≠ "" → c.apiPath = v) ∧
    (∀ v, a.reqtimeout = some v → v ≠ 0 → c.requestTimeout = v) ∧
    (∀ b, a.tls = some b → c.tls = b) ∧
    (∀ v, a.tlscert = some v → c.tlsCert = v) ∧
    (∀ v, a.tlskey = some v → c.tlsKey = v) ∧
    (∀ v, a.headauth = some v → v ≠ "" → c.headerAuth = some v) := by
  obtain ⟨hc, -, -, -, -⟩ := init_content_ok_shape a p path e c w hpath hpne hok
  subst hc
  refine ⟨?_, ?_, ?_, ?_, ?_, ?_, ?_, ?_, ?_⟩
  · intro n hn hpos
    simp [Config.setDefault, applyPort_port, hn, hpos, hpos.ne']
  · intro v hv hne
    simp [Config.setDefault, applyPort_natsURL, reapplyArgs, hv, hne]
  · intro v hv hne
    simp [Config.setDefault, applyPort_wsPath, reapplyArgs, hv, hne]
  · intro v hv hne
    simp [Config.setDefault, applyPort_apiPath, reapplyArgs, hv, hne]
  · intro v hv hne
    simp [Config.setDefault, applyPort_requestTimeout, reapplyArgs, hv, hne]
  · intro b hb
    simp [Config.setDefault, applyPort_tls, reapplyArgs, hb]
  · intro v hv
    simp [Config.setDefault, applyPort_tlsCert, reapplyArgs, hv]
  · intro v hv
    simp [Config.setDefault, applyPort_tlsKey, reapplyArgs, hv]
  · intro v hv hne
    simp [Config.setDefault, resolveHeadAuth, hv, hne]

/-- Witness for C1 at the spec's own example: a file with port 9000 and
the CLI override `--port 9090` resolve to port 9090. -/
theorem cli_overrides_win_witness :
    ({ natsURL := "nats://127.0.0.1:4222", requestTimeout := 5, debug := false,
       port := 9090, wsPath := "/", apiPath := "/api/", headerAuth := none,
       tls := false, tlsCert := "", tlsKey := "" } : Config).port = 9090 :=
  (cli_overrides_win { config := some "c.json", port := some 9090 }
      { port := some 9000 } "c.json" false _ none rfl (by decide) rfl).1
    9090 rfl (by decide)

/-- Claim C2: headerAuth is tri-state against a parsed config file: an
omitted `-u`/`--headauth` flag leaves the file value (or its absence)
untouched, a flag supplied with a non-empty string overrides it, and a
flag supplied with the empty string clears headerAuth to absent even
when the file defined a value. -/
theorem headauth_tristate (a : Args) (p : FileCfg) (path : String) (e : Bool)
    (c : Config) (w : Option Config)
    (hpath : a.config = some path) (hpne : path ≠ "")
    (hok : Config.init a (.content (some p)) e = .ok c w) :
    (a.headauth = none → c.headerAuth = p.headauth) ∧
    (∀ s, a.headauth = some s → s ≠ "" → c.headerAuth = some s) ∧
    (a.headauth = some "" → c.headerAuth = none) := by
  obtain ⟨hc, -, -, -, -⟩ := init_content_ok_shape a p path e c w hpath hpne hok
  subst hc
  refine ⟨?_, ?_, ?_⟩
  · intro hn
    simp [Config.setDefault, resolveHeadAuth, hn]
  · intro s hs hne
    simp [Config.setDefault, resolveHeadAuth, hs, hne]
  · intro hs
    simp [Config.setDefault, resolveHeadAuth, hs]

/-- Witness for C2 at the spec's own example: a file with
`headauth = "auth.method"` and an explicitly empty `--headauth ""`
resolve to an absent headerAuth. -/
theorem headauth_tristate_witness :
    ({ natsURL := "nats://127.0.0.1:4222", requestTimeout := 5, debug := false,
       port := 8080, wsPath := "/", apiPath := "/api/", headerAuth := none,
       tls := false, tlsCert := "", tlsKey := "" } : Config).headerAuth = none :=
  (headauth_tristate { config := some "c.json", headauth := some "" }
      { headauth := some "auth.method" } "c.json" false _ none rfl (by decide)
      rfl).2.2 rfl

/-! ### More shared helpers: defaulting invariants and the generic
success shape -/

theorem setDefault_natsURL_ne (c : Config) : (Config.setDefault c).natsURL ≠ "" := by
  simp only [Config.setDefault]
  split
  · decide
  · assumption

theorem setDefault_requestTimeout_ne (c : Config) :
    (Config.setDefault c).requestTimeout ≠ 0 := by
  simp only [Config.setDefault]
  split
  · decide
  · assumption

theorem setDefault_wsPath_ne (c : Config) : (Config.setDefault c).wsPath ≠ "" := by
  simp only [Config.setDefault]
  split
  · decide
  · assumption

theorem setDefault_apiPath_ne (c : Config) : (Config.setDefault c).apiPath ≠ "" := by
  simp only [Config.setDefault]
  split
  · decide
  · assumption

theorem setDefault_port_bounds (c : Config) (h : c.port < 65536) :
    1 ≤ (Config.setDefault c).port ∧ (Config.setDefault c).port ≤ 65535 := by
  simp only [Config.setDefault]
  split <;> omega

theorem applyPort_port_lt (a : Args) (c : Config) (h16 : a.port.getD 0 < 65536)
    (hc : c.port < 65536) : (applyPort a c).port < 65536 := by
  rw [applyPort_port]
  split <;> omega

/-- When `Config.Init` succeeds on any file state, the result is the
file-step config with the port and headauth overrides applied and the
defaults filled in, and both front guards passed. -/
theorem init_ok_shape (a : Args) (f : FileState) (e : Bool) (c : Config)
    (w : Option Config) (hok : Config.init a f e = .ok c w) :
    ∃ c1 wr, fileStep a f = .ok (c1, wr) ∧ w = wr ∧
      c = Config.setDefault
        { applyPort a c1 with headerAuth := resolveHeadAuth a c1.headerAuth } ∧
      a.port.getD 0 < 65536 ∧ a.help = false := by
  by_cases h16 : 65536 ≤ a.port.getD 0
  · exfalso; simp [Config.init, h16] at hok
  by_cases hh : a.help = true
  · exfalso; simp [Config.init, h16, hh] at hok
  have hh' : a.help = false := by simpa using hh
  rcases hfs : fileStep a f with msg | ⟨c1, wr⟩
  · exfalso; simp [Config.init, h16, hh', hfs] at hok
  · simp [Config.init, h16, hh', hfs] at hok
    exact ⟨c1, wr, rfl, hok.2.symm, hok.1.symm, Nat.not_le.mp h16, hh'⟩

/-- Claim C3 counterexample: with `--port 70000` Init dies through
`printAndDie(msg, true)`, i.e. the message is followed by the usage text
(not message-only), and this happens before any file layering: the file
state at the configured path — even an unreadable file, which would
otherwise be an error of its own — is never consulted. -/
theorem port_validation_counterexample :
    Config.init { port := some 70000 } .missing false
      = .usageError "invalid port \"70000\": must be less than 65536" ∧
    Config.init { port := some 70000, config := some "c.json" } .unreadable false
      = .usageError "invalid port \"70000\": must be less than 65536" := ⟨rfl, rfl⟩

/-- Claim C3 amended: a command-line port at or above 65536 is rejected
immediately after argument parsing, before the file layering, and the
rejection is displayed with the usage text; independently, every
resolution that completes has its resolved port inside 1..65535,
whatever layer supplied it. -/
theorem port_validation_amended (a : Args) (f : FileState) (e : Bool) :
    (∀ n, a.port = some n → 65536 ≤ n →
      Config.init a f e =
        .usageError ("invalid port \"" ++ toString n ++ "\": must be less than 65536")) ∧
    (∀ c w, Config.init a f e = .ok c w → 1 ≤ c.port ∧ c.port ≤ 65535) := by
  constructor
  · intro n hn h16
    simp [Config.init, hn, h16]
  · intro c w hok
    obtain ⟨c1, wr, hfs, -, hc, h16, -⟩ := init_ok_shape a f e c w hok
    subst hc
    have hlt := fileStep_port_lt a f c1 wr hfs
    have hx : (applyPort a c1).port < 65536 := applyPort_port_lt a c1 h16 hlt
    exact setDefault_port_bounds _ hx

/-- Witness for the amended C3: with no arguments and no file, the
resolved port 8080 is inside 1..65535. -/
theorem port_validation_amended_witness :
    1 ≤ ({ natsURL := "nats://127.0.0.1:4222", requestTimeout := 5, debug := false,
           port := 8080, wsPath := "/", apiPath := "/api/", headerAuth := none,
           tls := false, tlsCert := "", tlsKey := "" } : Config).port ∧
    ({ natsURL := "nats://127.0.0.1:4222", requestTimeout := 5, debug := false,
       port := 8080, wsPath := "/", apiPath := "/api/", headerAuth := none,
       tls := false, tlsCert := "", tlsKey := "" } : Config).port ≤ 65535 :=
  (port_validation_amended {} .missing false).2 _ none rfl

/-- Claim C4: when shutdown has been initiated (the trigger reached the
stop sequence of lines 200-211) and the race between `serv.Stop`'s
completion and the timer is won by the timer, the process panics with
"Shutdown timed out" — a terminal fatal outcome, never a continuation of
normal running; the bounded wait is the race itself. -/
theorem shutdown_timeout_aborts (t : Trigger) (h : stopInvoked t = true) :
    lifecycle t .timedOut = .panicked "Shutdown timed out" := by
  cases t with
  | signal => rfl
  | stopChanEvent o =>
      cases o with
      | none => rfl
      | some e => simp [stopInvoked] at h

/-- Witness for C4 at a signal-triggered shutdown. -/
theorem shutdown_timeout_aborts_witness :
    lifecycle .signal .timedOut = .panicked "Shutdown timed out" :=
  shutdown_timeout_aborts .signal rfl

/-- Claim C5 counterexample: a non-nil fatal error on the stop channel
does not take the same path as a signal: `serv.Stop` is never invoked
(the process exits inside the select), unlike on a signal. -/
theorem fatal_error_counterexample :
    stopInvoked (.stopChanEvent (some "lost nats connection")) = false ∧
    stopInvoked .signal = true ∧
    lifecycle (.stopChanEvent (some "lost nats connection")) .stopDone
      = .exitError "lost nats connection" := ⟨rfl, rfl, rfl⟩

/-- Claim C5 amended: a non-nil fatal error on the stop channel makes the
process exit immediately with only the message, skipping the stop
operation and its timeout race entirely; a nil stop-channel event, by
contrast, behaves exactly like an OS signal. -/
theorem fatal_error_exits_directly (e : String) (r : RaceOutcome) :
    lifecycle (.stopChanEvent (some e)) r = .exitError e ∧
    stopInvoked (.stopChanEvent (some e)) = false ∧
    lifecycle (.stopChanEvent none) r = lifecycle .signal r := by
  refine ⟨rfl, rfl, ?_⟩
  cases r <;> rfl

/-- Claim C6 counterexample: `--reqtimeout -3` resolves successfully to a
configuration whose requestTimeout is negative, so not every required
field holds a positive value. -/
theorem resolved_invariant_counterexample :
    Config.init { reqtimeout := some (-3) } .missing false
      = .ok { natsURL := "nats://127.0.0.1:4222", requestTimeout := -3, debug := false,
              port := 8080, wsPath := "/", apiPath := "/api/", headerAuth := none,
              tls := false, tlsCert := "", tlsKey := "" } none ∧
    ¬ 0 < ({ natsURL := "nats://127.0.0.1:4222", requestTimeout := -3, debug := false,
             port := 8080, wsPath := "/", apiPath := "/api/", headerAuth := none,
             tls := false, tlsCert := "", tlsKey := "" } : Config).requestTimeout :=
  ⟨rfl, by decide⟩

/-- Claim C6 amended: every successful resolution leaves no required
field at its zero value — natsURL, wsPath and apiPath are non-empty and
requestTimeout is non-zero (though it may be negative when a negative
value was supplied) — headerAuth is the only field whose absence is
meaningful, and the port lies in 1..65535. -/
theorem resolved_invariant_amended (a : Args) (f : FileState) (e : Bool)
    (c : Config) (w : Option Config) (hok : Config.init a f e = .ok c w) :
    c.natsURL ≠ "" ∧ c.requestTimeout ≠ 0 ∧ c.wsPath ≠ "" ∧ c.apiPath ≠ "" ∧
    1 ≤ c.port ∧ c.port ≤ 65535 := by
  obtain ⟨c1, wr, hfs, -, hc, h16, -⟩ := init_ok_shape a f e c w hok
  subst hc
  have hlt := fileStep_port_lt a f c1 wr hfs
  have hx : (applyPort a c1).port < 65536 := applyPort_port_lt a c1 h16 hlt
  obtain ⟨hp1, hp2⟩ := setDefault_port_bounds
    { applyPort a c1 with headerAuth := resolveHeadAuth a c1.headerAuth } hx
  exact ⟨setDefault_natsURL_ne _, setDefault_requestTimeout_ne _,
    setDefault_wsPath_ne _, setDefault_apiPath_ne _, hp1, hp2⟩

/-- Witness for the amended C6 at the empty command line with no file. -/
theorem resolved_invariant_amended_witness :
    ({ natsURL := "nats://127.0.0.1:4222", requestTimeout := 5, debug := false,
       port := 8080, wsPath := "/", apiPath := "/api/", headerAuth := none,
       tls := false, tlsCert := "", tlsKey := "" } : Config).natsURL ≠ "" ∧
    ({ natsURL := "nats://127.0.0.1:4222", requestTimeout := 5, debug := false,
       port := 8080, wsPath := "/", apiPath := "/api/", headerAuth := none,
       tls := false, tlsCert := "", tlsKey := "" } : Config).requestTimeout ≠ 0 ∧
    ({ natsURL := "nats://127.0.0.1:4222", requestTimeout := 5, debug := false,
       port := 8080, wsPath := "/", apiPath := "/api/", headerAuth := none,
       tls := false, tlsCert := "", tlsKey := "" } : Config).wsPath ≠ "" ∧
    ({ natsURL := "nats://127.0.0.1:4222", requestTimeout := 5, debug := false,
       port := 8080, wsPath := "/", apiPath := "/api/", headerAuth := none,
       tls := false, tlsCert := "", tlsKey := "" } : Config).apiPath ≠ "" ∧
    1 ≤ ({ natsURL := "nats://127.0.0.1:4222", requestTimeout := 5, debug := false,
           port := 8080, wsPath := "/", apiPath := "/api/", headerAuth := none,
           tls := false, tlsCert := "", tlsKey := "" } : Config).port ∧
    ({ natsURL := "nats://127.0.0.1:4222", requestTimeout := 5, debug := false,
       port := 8080, wsPath := "/", apiPath := "/api/", headerAuth := none,
       tls := false, tlsCert := "", tlsKey := "" } : Config).port ≤ 65535 :=
  resolved_invariant_amended {} .missing false _ none rfl

/-- Claim C7: with a config path whose file is missing, resolution
bootstraps — the first-pass config is filled with defaults and recorded
as the file write — and still succeeds identically whether or not that
best-effort write fails; an unreadable or unparsable file, by contrast,
is a resolution error. -/
theorem bootstrap_write_swallowed (a : Args) (path : String) (e1 e2 : Bool)
    (hpath : a.config = some path) (hpne : path ≠ "")
    (h16 : a.port.getD 0 < 65536) (hh : a.help = false) :
    Config.init a .missing e1
      = .ok (Config.setDefault
          { applyPort a (parsedConfig a).setDefault with
            headerAuth := resolveHeadAuth a none })
          (some (parsedConfig a).setDefault) ∧
    Config.init a .missing e1 = Config.init a .missing e2 ∧
    Config.init a .unreadable e1 = .initError "error loading config file" ∧
    Config.init a (.content none) e1 = .initError "error parsing config file" := by
  have h16' : ¬ 65536 ≤ a.port.getD 0 := Nat.not_le.mpr h16
  refine ⟨init_missing_eq a path e1 hpath hpne h16 hh, rfl, ?_, ?_⟩
  · simp [Config.init, fileStep, hpath, hpne, h16', hh]
  · simp [Config.init, fileStep, hpath, hpne, h16', hh]

/-- Witness for C7 at `--config new.json` with nothing else supplied. -/
theorem bootstrap_write_swallowed_witness :
    Config.init { config := some "new.json" } .missing true
      = .ok (Config.setDefault
          { applyPort { config := some "new.json" }
              (parsedConfig { config := some "new.json" }).setDefault with
            headerAuth := resolveHeadAuth { config := some "new.json" } none })
          (some (parsedConfig { config := some "new.json" }).setDefault) ∧
    Config.init { config := some "new.json" } .missing true
      = Config.init { config := some "new.json" } .missing false ∧
    Config.init { config := some "new.json" } .unreadable true
      = .initError "error loading config file" ∧
    Config.init { config := some "new.json" } (.content none) true
      = .initError "error parsing config file" :=
  bootstrap_write_swallowed { config := some "new.json" } "new.json" true false
    rfl (by decide) (by decide) rfl

/-- Claim C8: round-trip idempotence of the bootstrap file. Resolving
with `--config newfile.json` against a missing file writes the defaulted
configuration; resolving again with that written content present (read
back through the marshalling model `toFileCfg`) and no other overrides
yields the identical resolved configuration, with no further write. -/
theorem bootstrap_roundtrip :
    Config.init { config := some "newfile.json" } .missing false
      = .ok { natsURL := "nats://127.0.0.1:4222", requestTimeout := 5, debug := false,
              port := 8080, wsPath := "/", apiPath := "/api/", headerAuth := none,
              tls := false, tlsCert := "", tlsKey := "" }
          (some { natsURL := "nats://127.0.0.1:4222", requestTimeout := 5, debug := false,
                  port := 8080, wsPath := "/", apiPath := "/api/", headerAuth := none,
                  tls := false, tlsCert := "", tlsKey := "" }) ∧
    Config.init { config := some "newfile.json" }
        (.content (some (toFileCfg
          { natsURL := "nats://127.0.0.1:4222", requestTimeout := 5, debug := false,
            port := 8080, wsPath := "/", apiPath := "/api/", headerAuth := none,
            tls := false, tlsCert := "", tlsKey := "" }))) false
      = .ok { natsURL := "nats://127.0.0.1:4222", requestTimeout := 5, debug := false,
              port := 8080, wsPath := "/", apiPath := "/api/", headerAuth := none,
              tls := false, tlsCert := "", tlsKey := "" } none := ⟨rfl, rfl⟩

/-- Claim C9: `--port 0` resolves exactly like an absent port flag, on
every file state; and with no file-supplied port the resolved port is
the default 8080, both when no config file is consulted and when the
consulted file does not define a port. -/
theorem port_zero_like_absent (a : Args) (f : FileState) (e : Bool) :
    Config.init { a with port := some 0 } f e
      = Config.init { a with port := none } f e ∧
    (∀ c w, Config.init { a with port := some 0, config := none } f e = .ok c w →
      c.port = 8080) ∧
    (∀ p c w, p.port = none →
      Config.init { a with port := some 0 } (.content (some p)) e = .ok c w →
      c.port = 8080) := by
  refine ⟨?_, ?_, ?_⟩
  · cases a
    simp [Config.init, fileStep, parsedConfig, applyPort, resolveHeadAuth, reapplyArgs]
  · intro c w hok
    obtain ⟨c1, wr, hfs, -, hc, -, -⟩ := init_ok_shape _ f e c w hok
    have hfs' : fileStep { a with port := some 0, config := none } f
        = .ok (parsedConfig { a with port := some 0, config := none }, none) := by
      simp [fileStep]
    rw [hfs'] at hfs
    simp at hfs
    obtain ⟨hp1, -⟩ := hfs
    subst hc
    simp [← hp1, Config.setDefault, applyPort, parsedConfig]
  · intro p c w hp hok
    obtain ⟨c1, wr, hfs, -, hc, -, -⟩ := init_ok_shape _ _ e c w hok
    have hc1 : c1.port = 0 := by
      unfold fileStep at hfs
      split at hfs
      · simp at hfs
        obtain ⟨hp1, -⟩ := hfs
        simp [← hp1, parsedConfig]
      · by_cases hpp : 65536 ≤ p.port.getD 0
        · simp [unmarshalInto, hpp] at hfs
        · simp [unmarshalInto, hpp] at hfs
          obtain ⟨hp1, -⟩ := hfs
          simp [← hp1, reapplyArgs, overwriteWith, parsedConfig, hp]
    subst hc
    simp [Config.setDefault, applyPort, hc1]

/-- Witness for C9: with `--port 0` alone and no file, the resolved port
is the default 8080. -/
theorem port_zero_like_absent_witness :
    ({ natsURL := "nats://127.0.0.1:4222", requestTimeout := 5, debug := false,
       port := 8080, wsPath := "/", apiPath := "/api/", headerAuth := none,
       tls := false, tlsCert := "", tlsKey := "" } : Config).port = 8080 :=
  (port_zero_like_absent {} .missing false).2.1 _ none rfl

/-- Claim C10: the bootstrap file's content is independent of `--port`:
when the config file is missing, the written bootstrap carries the
default port 8080 (the port override has not yet been applied), while
the in-memory resolved configuration carries the CLI port `n`; for any
`n` other than 8080 the two therefore differ. -/
theorem bootstrap_port_independent (a : Args) (n : Nat) (path : String) (e : Bool)
    (c w : Config)
    (hpath : a.config = some path) (hpne : path ≠ "")
    (hport : a.port = some n) (h1 : 1 ≤ n) (h2 : n ≤ 65535)
    (hok : Config.init a .missing e = .ok c (some w)) :
    w.port = 8080 ∧ c.port = n ∧ (n ≠ 8080 → w.port ≠ n) := by
  have hn16 : n < 65536 := by omega
  have h16 : a.port.getD 0 < 65536 := by rw [hport]; simpa using hn16
  by_cases hh : a.help = true
  · exfalso
    have h16' : ¬ 65536 ≤ a.port.getD 0 := Nat.not_le.mpr h16
    simp [Config.init, h16', hh] at hok
  have hh' : a.help = false := by simpa using hh
  rw [init_missing_eq a path e hpath hpne h16 hh'] at hok
  simp at hok
  obtain ⟨hc, hw⟩ := hok
  have hpos : 0 < n := h1
  have hwp : w.port = 8080 := by
    simp [← hw, Config.setDefault, parsedConfig]
  have hcp : c.port = n := by
    simp [← hc, Config.setDefault, applyPort, hport, hpos, hpos.ne']
  exact ⟨hwp, hcp, fun hne => by rw [hwp]; omega⟩

/-- Witness for C10 at `--config c2.json --port 3000` with the file
missing: the bootstrap content carries port 8080, the resolved
configuration carries 3000. -/
theorem bootstrap_port_independent_witness :
    ({ natsURL := "nats://127.0.0.1:4222", requestTimeout := 5, debug := false,
       port := 8080, wsPath := "/", apiPath := "/api/", headerAuth := none,
       tls := false, tlsCert := "", tlsKey := "" } : Config).port = 8080 ∧
    ({ natsURL := "nats://127.0.0.1:4222", requestTimeout := 5, debug := false,
       port := 3000, wsPath := "/", apiPath := "/api/", headerAuth := none,
       tls := false, tlsCert := "", tlsKey := "" } : Config).port = 3000 ∧
    (3000 ≠ 8080 →
      ({ natsURL := "nats://127.0.0.1:4222", requestTimeout := 5, debug := false,
         port := 8080, wsPath := "/", apiPath := "/api/", headerAuth := none,
         tls := false, tlsCert := "", tlsKey := "" } : Config).port ≠ 3000) :=
  bootstrap_port_independent { config := some "c2.json", port := some 3000 }
    3000 "c2.json" false
    { natsURL := "nats://127.0.0.1:4222", requestTimeout := 5, debug := false,
      port := 3000, wsPath := "/", apiPath := "/api/", headerAuth := none,
      tls := false, tlsCert := "", tlsKey := "" }
    { natsURL := "nats://127.0.0.1:4222", requestTimeout := 5, debug := false,
      port := 8080, wsPath := "/", apiPath := "/api/", headerAuth := none,
      tls := false, tlsCert := "", tlsKey := "" }
    rfl (by decide) rfl (by decide) (by decide) rfl
